import Mathlib

/-!
Shallow embedding of the authentication core of the `Blarc/angular-udemy`
repository (source: the code blocks of `src/notes/authentication.md`):
the `User` model with its `token` getter, `AuthService`
(`handleAuthentication`, `autoLogin`, `logout`, `autoLogout` and the
`tokenExpirationTimer`), the `localStorage` persistence of `userData`,
`AuthInterceptorService.intercept` and `AuthGuard.canActivate`, together
with a model of the RxJS `BehaviorSubject` used for `AuthService.user`.

Modelling conventions:
* Wall-clock times (`new Date().getTime()`) are `Nat` milliseconds since
  the epoch.
* A JavaScript `Date` value stored in `User._tokenExpirationDate` is a
  `DateVal`: `dnull` for `null`/`undefined` (falsy), `dinvalid` for an
  Invalid Date (a truthy object whose comparisons are all false, since
  its time value is NaN), `dtime ms` for a real date.
* Strings that may be `undefined` at runtime (fields read from parsed
  JSON) are `Option String`; `none` plays the role of
  `null`/`undefined`, which are both falsy.
* `JSON.stringify`/`JSON.parse` and `localStorage` are platform
  builtins; they are modelled concretely: the store holds
  `Option String`, serialization renders the flat JSON object that
  `JSON.stringify` produces for a freshly constructed `User` (string
  fields, `"` and `\` escaped, no whitespace), and parsing is a
  recursive-descent parser for that flat-object grammar which fails
  (`Except.error`, modelling a thrown `SyntaxError`) on malformed input.
  The ISO-8601 serialization of a `Date` is lossless at millisecond
  precision; it is modelled by the decimal-digit string of the
  millisecond timestamp (`encMs`/`decMs`), an equally lossless encoding.
* `setTimeout`/`clearTimeout` are modelled by a list of live timers
  `(id, fireAt)` plus the service's `tokenExpirationTimer` handle; a
  cleared timer is removed from the live list, and a timer whose id is
  no longer live never fires (JavaScript event-loop semantics).
-/

/-- JavaScript `Date`-valued field: `null`/`undefined`, an Invalid Date,
or a date with a millisecond timestamp. -/
inductive DateVal where
  | dnull : DateVal
  | dinvalid : DateVal
  | dtime (ms : Nat) : DateVal
deriving DecidableEq

/-- JavaScript truthiness of a `Date`-valued field: `null`/`undefined`
are falsy; any `Date` object, valid or not, is truthy. -/
def dateTruthy : DateVal → Bool
  | DateVal.dnull => false
  | DateVal.dinvalid => true
  | DateVal.dtime _ => true

/-- The comparison `new Date() > d` for current time `now`: comparisons
against an Invalid Date (NaN time value) are always false; the
`null`/`undefined` case is unreachable in the getter (short-circuit).  -/
def dateGt (now : Nat) : DateVal → Bool
  | DateVal.dnull => false
  | DateVal.dinvalid => false
  | DateVal.dtime ms => decide (ms < now)

/-- The `User` model of `user.model.ts`: `email`, `id`, the private
`_token` and `_tokenExpirationDate`.  String fields are `Option` because
`autoLogin` may construct a `User` from parsed JSON with missing
(undefined) properties. -/
structure User where
  email : Option String
  id : Option String
  _token : Option String
  _tokenExpirationDate : DateVal
deriving DecidableEq

/-- The `get token()` getter of `user.model.ts`:
`if (!this._tokenExpirationDate || new Date() > this._tokenExpirationDate)
return null; return this._token;`. -/
def User.token (u : User) (now : Nat) : Option String :=
  if !dateTruthy u._tokenExpirationDate || dateGt now u._tokenExpirationDate then
    none
  else
    u._token

/-- JavaScript truthiness of a string-or-nullish value: `null`,
`undefined` and the empty string are falsy. -/
def strTruthy : Option String → Bool
  | none => false
  | some s => !s.isEmpty

/-- Decimal digit character for `d` (`0`-`9`). -/
def digitCh (d : Nat) : Char :=
  Char.ofNat (48 + d)

/-- Inverse of `digitCh` on characters `0`-`9`; `none` otherwise. -/
def decDigit (c : Char) : Option Nat :=
  if 48 ≤ c.toNat ∧ c.toNat ≤ 57 then some (c.toNat - 48) else none

/-- Decode a list of decimal digit characters. -/
def decDigits : List Char → Option (List Nat)
  | [] => some []
  | c :: cs =>
    match decDigit c, decDigits cs with
    | some d, some ds => some (d :: ds)
    | _, _ => none

/-- Little-endian decimal digits of the second argument, with
structural fuel (sufficient once the fuel reaches the number). -/
def natDigitsAux : Nat → Nat → List Nat
  | _, 0 => []
  | 0, _ + 1 => []
  | fuel + 1, n + 1 => (n + 1) % 10 :: natDigitsAux fuel ((n + 1) / 10)

/-- Little-endian decimal digits of `n`. -/
def natDigits (n : Nat) : List Nat :=
  natDigitsAux n n

/-- Lossless string encoding of a millisecond timestamp, standing in for
the (equally lossless) ISO-8601 string `Date.prototype.toJSON` writes. -/
def encMs (n : Nat) : String :=
  if n = 0 then "0" else String.mk (((natDigits n).map digitCh).reverse)

/-- Decode a nonempty list of decimal digit characters (most significant
first) to a number; `none` on anything else. -/
def decMsChars : List Char → Option Nat
  | [] => none
  | c :: cs =>
    match decDigits (c :: cs) with
    | some ds => some (Nat.ofDigits 10 ds.reverse)
    | none => none

/-- Decode the string of a stored `_tokenExpirationDate` back to a
millisecond timestamp; `none` stands for `new Date(s)` being Invalid. -/
def decMs (s : String) : Option Nat :=
  decMsChars s.data

/-- `new Date(s)` on a string-or-undefined field: a decodable timestamp
string yields that date, anything else an Invalid Date. -/
def dateOfStored : Option String → DateVal
  | none => DateVal.dinvalid
  | some s =>
    match decMs s with
    | some ms => DateVal.dtime ms
    | none => DateVal.dinvalid

/-- JSON string-body escaping as `JSON.stringify` performs it for the
characters occurring here: `"` and `\` get a backslash. -/
def escChars : List Char → List Char
  | [] => []
  | c :: cs =>
    if c = '"' ∨ c = '\\' then '\\' :: c :: escChars cs else c :: escChars cs

/-- Rendering of one `"key":"value"` member of the stored JSON object. -/
def renderPair (k v : String) : List Char :=
  '"' :: escChars k.data ++ '"' :: ':' :: '"' :: escChars v.data ++ ['"']

/-- Rendering of the members of the stored JSON object, including the
closing brace. -/
def renderPairs : List (String × String) → List Char
  | [] => ['\x7d']
  | [(k, v)] => renderPair k v ++ ['\x7d']
  | (k, v) :: p :: rest => renderPair k v ++ ',' :: renderPairs (p :: rest)

/-- `JSON.stringify(user)` for the `User` freshly constructed by
`handleAuthentication`: a flat object with the four own properties in
assignment order, the `Date` rendered via its lossless string encoding. -/
def userDataJson (email id tok : String) (expMs : Nat) : String :=
  String.mk ('\x7b' :: renderPairs
    [("email", email), ("id", id), ("_token", tok),
     ("_tokenExpirationDate", encMs expMs)])

/-- Parse a JSON string body after its opening quote: returns the
unescaped content and the remainder after the closing quote.  The
boolean records whether the previous character was an unconsumed
backslash (escape state). -/
def parseJStrAux : Bool → List Char → Option (List Char × List Char)
  | _, [] => none
  | true, e :: rest =>
    if e = '"' ∨ e = '\\' then
      match parseJStrAux false rest with
      | some (content, rem) => some (e :: content, rem)
      | none => none
    else none
  | false, c :: rest =>
    if c = '"' then some ([], rest)
    else if c = '\\' then parseJStrAux true rest
    else
      match parseJStrAux false rest with
      | some (content, rem) => some (c :: content, rem)
      | none => none

/-- Parse the members of a flat string-valued JSON object up to and
including the closing brace, with explicit fuel. -/
def parsePairsAux : Nat → List Char → Option (List (String × String) × List Char)
  | 0, _ => none
  | fuel + 1, l =>
    match l with
    | '"' :: rest =>
      (match parseJStrAux false rest with
       | none => none
       | some (key, rem1) =>
         match rem1 with
         | ':' :: '"' :: rem2 =>
           (match parseJStrAux false rem2 with
            | none => none
            | some (val, rem3) =>
              match rem3 with
              | ',' :: rem4 =>
                (match parsePairsAux fuel rem4 with
                 | some (pairs, rem5) => some ((String.mk key, String.mk val) :: pairs, rem5)
                 | none => none)
              | '\x7d' :: rem4 => some ([(String.mk key, String.mk val)], rem4)
              | _ => none)
         | _ => none)
    | _ => none

/-- `JSON.parse` on the character data of the stored document,
restricted to the grammar this application ever writes (`null` or a
flat object of string fields); `Except.error` models a thrown
`SyntaxError` on malformed data. -/
def jsonParseChars (l : List Char) : Except Unit (Option (List (String × String))) :=
  if l = ['n', 'u', 'l', 'l'] then Except.ok none
  else
    match l with
    | '\x7b' :: rest =>
      if rest = ['\x7d'] then Except.ok (some [])
      else
        match parsePairsAux rest.length rest with
        | some (pairs, []) => Except.ok (some pairs)
        | _ => Except.error ()
    | _ => Except.error ()

/-- `JSON.parse` on the stored document. -/
def jsonParseDoc (s : String) : Except Unit (Option (List (String × String))) :=
  jsonParseChars s.data

/-- `JSON.parse(localStorage.getItem('userData'))`: a missing item is
`null`, which `JSON.parse` coerces to the string "null" and parses to
`null`; otherwise the stored string is parsed. -/
def loadUserData : Option String → Except Unit (Option (List (String × String)))
  | none => Except.ok none
  | some s => jsonParseDoc s

/-- JavaScript property access on the parsed object (`userData.email`
etc.); `none` is `undefined`. -/
def getField : List (String × String) → String → Option String
  | [], _ => none
  | (k, v) :: rest, key => if k = key then some v else getField rest key

/-- The `loadedUser` construction of `autoLogin`:
`new User(userData.email, userData.id, userData._token,
new Date(userData._tokenExpirationDate))`. -/
def userOfDoc (pairs : List (String × String)) : User :=
  { email := getField pairs "email"
    id := getField pairs "id"
    _token := getField pairs "_token"
    _tokenExpirationDate := dateOfStored (getField pairs "_tokenExpirationDate") }

/-- The load-and-reconstruct prefix of `autoLogin`: parse the stored
document and, when it yields an object, build the `loadedUser` from it. -/
def loadStoredUser (store : Option String) : Except Unit (Option User) :=
  match loadUserData store with
  | Except.error e => Except.error e
  | Except.ok none => Except.ok none
  | Except.ok (some pairs) => Except.ok (some (userOfDoc pairs))

/-- State of `AuthService` together with the scheduler: the
`BehaviorSubject`'s current `user` value, the `localStorage` entry
`userData`, the `tokenExpirationTimer` handle, the list of live
(scheduled, neither fired nor cleared) timers as `(id, fireAt)` pairs, a
fresh-id counter, and an instrumentation counter of `logout`
invocations used to state the cancellation law. -/
structure AuthState where
  user : Option User
  store : Option String
  tokenExpirationTimer : Option Nat
  pending : List (Nat × Nat)
  nextId : Nat
  logoutCalls : Nat
deriving DecidableEq

/-- Process-start state: `BehaviorSubject<User>(null)`, nothing
scheduled. The store may hold a document left over from an earlier
process. -/
def initialAuthState : AuthState :=
  { user := none, store := none, tokenExpirationTimer := none,
    pending := [], nextId := 0, logoutCalls := 0 }

/-- `autoLogout(expirationDuration)`:
`this.tokenExpirationTimer = setTimeout(() => this.logout(), d)` — a new
timer is scheduled and its handle overwrites the field; no existing
timer is cleared. -/
def autoLogoutStep (s : AuthState) (delay : Nat) (now : Nat) : AuthState :=
  { s with pending := s.pending ++ [(s.nextId, now + delay)],
           tokenExpirationTimer := some s.nextId,
           nextId := s.nextId + 1 }

/-- `handleAuthentication(email, userId, token, expiresIn)`: compute
`expirationDate = now + expiresIn * 1000`, construct the `User`, emit it
on the subject, schedule `autoLogout(expiresIn * 1000)`, and write
`JSON.stringify(user)` to `localStorage`. -/
def handleAuthentication (s : AuthState) (email userId tok : String)
    (expiresIn : Nat) (now : Nat) : AuthState :=
  let expirationDate := now + expiresIn * 1000
  let s1 := { s with user := some { email := some email, id := some userId,
                                    _token := some tok,
                                    _tokenExpirationDate := DateVal.dtime expirationDate } }
  let s2 := autoLogoutStep s1 (expiresIn * 1000) now
  { s2 with store := some (userDataJson email userId tok expirationDate) }

/-- `logout()`: emit `null`, remove the stored `userData`, clear the
timer referenced by `tokenExpirationTimer` (if any) and null the handle.
The `router.navigate(['/auth'])` call is outside this model.  The
instrumentation counter records the invocation. -/
def logout (s : AuthState) : AuthState :=
  let s1 := { s with user := none, store := none,
                     logoutCalls := s.logoutCalls + 1 }
  match s.tokenExpirationTimer with
  | some h =>
    { s1 with pending := s1.pending.filter (fun t => t.1 ≠ h),
              tokenExpirationTimer := none }
  | none => { s1 with tokenExpirationTimer := none }

/-- A scheduler event: the timer with the given id comes due.  A live
timer is dequeued and runs its callback `() => this.logout()`; an id
that is no longer live (cleared) never runs. -/
def fireTimer (s : AuthState) (id : Nat) : AuthState :=
  if s.pending.any (fun t => t.1 = id) then
    logout { s with pending := s.pending.filter (fun t => t.1 ≠ id) }
  else s

/-- `autoLogin()`: parse `localStorage.getItem('userData')` (a thrown
parse error propagates to the caller); return on `null`; otherwise build
`loadedUser` and, if `loadedUser.token` is truthy, emit it and schedule
`autoLogout` for the remaining duration
(`expirationDate.getTime() - now`, which `setTimeout` clamps at zero and
coerces to zero when the date is invalid).  An expired or tokenless
document leaves the state — including the store — untouched. -/
def autoLogin (s : AuthState) (now : Nat) : Except Unit AuthState :=
  match loadStoredUser s.store with
  | Except.error e => Except.error e
  | Except.ok none => Except.ok s
  | Except.ok (some loadedUser) =>
    if strTruthy (User.token loadedUser now) then
      let delay : Nat :=
        match loadedUser._tokenExpirationDate with
        | DateVal.dtime e => e - now
        | _ => 0
      Except.ok (autoLogoutStep { s with user := some loadedUser } delay now)
    else
      Except.ok s

/-- An outgoing `HttpRequest` descriptor, as far as the interceptor
touches it: a url and its params; a param value is `Option String`
because `HttpParams().set('auth', user.token)` may receive `null`. -/
structure HttpRequestModel where
  url : String
  params : List (String × Option String)
deriving DecidableEq

/-- `AuthInterceptorService.intercept` (after `take(1)` on the user
subject): pass the request through when no user is logged in, otherwise
`req.clone({params: new HttpParams().set('auth', user.token)})` — a
clone whose params are a fresh set holding only `auth`. -/
def intercept (user : Option User) (now : Nat) (req : HttpRequestModel) : HttpRequestModel :=
  match user with
  | none => req
  | some u => { req with params := [("auth", User.token u now)] }

/-- Result of `AuthGuard.canActivate`: `true` or a `UrlTree` built from
router commands. -/
inductive GuardDecision where
  | allow : GuardDecision
  | redirect (commands : List String) : GuardDecision
deriving DecidableEq

/-- `AuthGuard.canActivate` (after `take(1)` on the user subject):
`const isAuth = !!user; if (isAuth) return true;
return this.router.createUrlTree(['/auth']);`. -/
def canActivate (user : Option User) : GuardDecision :=
  if user.isSome then GuardDecision.allow
  else GuardDecision.redirect ["/auth"]

/-- Operations on a `BehaviorSubject`: emit a value, register an
observer, cancel a subscription. -/
inductive BOp (α : Type) where
  | next (v : α) : BOp α
  | subscribe (id : Nat) : BOp α
  | unsubscribe (id : Nat) : BOp α
deriving DecidableEq

/-- Model of the RxJS `BehaviorSubject` behind `AuthService.user`: the
cached current value, the registered observers, and the per-observer
log of delivered values. -/
structure BSubject (α : Type) where
  value : α
  observers : List Nat
  delivered : Nat → List α

/-- One `BehaviorSubject` step: `next v` caches `v` and delivers it to
every registered observer; `subscribe id` registers the observer and
immediately delivers the cached current value to it; `unsubscribe id`
deregisters it. -/
def bstep {α : Type} (s : BSubject α) : BOp α → BSubject α
  | BOp.next v =>
    { value := v, observers := s.observers,
      delivered := fun i => if i ∈ s.observers then s.delivered i ++ [v] else s.delivered i }
  | BOp.subscribe id =>
    { s with observers := s.observers ++ [id],
             delivered := fun i => if i = id then s.delivered i ++ [s.value] else s.delivered i }
  | BOp.unsubscribe id =>
    { s with observers := s.observers.erase id }

/-- Run a sequence of `BehaviorSubject` operations. -/
def brun {α : Type} (s : BSubject α) (ops : List (BOp α)) : BSubject α :=
  ops.foldl bstep s

/-- The values a subscriber registered now would be sent by the
subsequent operations, until its own unsubscription. -/
def emittedWhile {α : Type} (id : Nat) : List (BOp α) → List α
  | [] => []
  | BOp.next v :: rest => v :: emittedWhile id rest
  | BOp.subscribe _ :: rest => emittedWhile id rest
  | BOp.unsubscribe j :: rest => if j = id then [] else emittedWhile id rest

/-! ### Helper lemmas -/

/-- Filtering out an id leaves no timer with that id. -/
theorem any_filter_ne_eq_false (l : List (Nat × Nat)) (id : Nat) :
    (l.filter (fun t => t.1 ≠ id)).any (fun t => t.1 = id) = false := by
  simp only [List.any_eq_false, List.mem_filter, decide_eq_true_eq]
  intro x hx
  simpa using hx.2

/-- Parsing the rendered, escaped body of a JSON string recovers the
original characters and stops at the closing quote. -/
theorem parseJStrAux_escChars (l rest : List Char) :
    parseJStrAux false (escChars l ++ '"' :: rest) = some (l, rest) := by
  induction l with
  | nil => rfl
  | cons c cs ih =>
    by_cases hc : c = '"' ∨ c = '\\'
    · simp [escChars, hc, parseJStrAux, ih]
    · push_neg at hc
      simp [escChars, hc.1, hc.2, parseJStrAux, ih]

/-- A rendered member list is at least as long as the member list. -/
theorem length_le_renderPairs : ∀ pairs : List (String × String),
    pairs.length ≤ (renderPairs pairs).length := by
  intro pairs
  induction pairs with
  | nil => simp [renderPairs]
  | cons p rest ih =>
    obtain ⟨k, v⟩ := p
    cases rest with
    | nil => simp [renderPairs]
    | cons q rs =>
      simp only [renderPairs, List.length_append, List.length_cons] at ih ⊢
      omega

/-- Parsing the rendered members of a nonempty flat object recovers the
members, given enough fuel. -/
theorem parsePairsAux_renderPairs : ∀ (pairs : List (String × String))
    (fuel : Nat) (tail : List Char), pairs ≠ [] → pairs.length ≤ fuel →
    parsePairsAux fuel (renderPairs pairs ++ tail) = some (pairs, tail) := by
  intro pairs
  induction pairs with
  | nil => intro fuel tail h; exact absurd rfl h
  | cons p rest ih =>
    obtain ⟨k, v⟩ := p
    intro fuel tail _ hlen
    cases fuel with
    | zero => simp at hlen
    | succ f =>
      cases rest with
      | nil =>
        simp only [renderPairs, renderPair, List.cons_append, List.append_assoc,
          List.nil_append]
        simp [parsePairsAux, parseJStrAux_escChars]
      | cons q rs =>
        simp only [renderPairs, renderPair, List.cons_append, List.append_assoc,
          List.nil_append]
        have hrec := ih f tail (by simp) (by simp at hlen ⊢; omega)
        simp [parsePairsAux, parseJStrAux_escChars, hrec]

/-- The fueled digit list agrees with `Nat.digits` base 10 once the fuel
dominates the number. -/
theorem natDigitsAux_eq_digits : ∀ fuel n : Nat, n ≤ fuel →
    natDigitsAux fuel n = Nat.digits 10 n := by
  intro fuel
  induction fuel with
  | zero =>
    intro n hn
    interval_cases n
    simp [natDigitsAux]
  | succ f ih =>
    intro n hn
    cases n with
    | zero => simp [natDigitsAux]
    | succ m =>
      rw [Nat.digits_def' (by norm_num : (1 : Nat) < 10) (Nat.succ_pos m)]
      simp only [natDigitsAux]
      congr 1
      exact ih ((m + 1) / 10) (by
        have := Nat.div_lt_self (Nat.succ_pos m) (by norm_num : (1 : Nat) < 10)
        omega)

/-- Decoding a decimal digit character recovers the digit. -/
theorem decDigit_digitCh : ∀ d : Nat, d < 10 → decDigit (digitCh d) = some d := by decide

/-- Decoding an encoded digit list recovers the digits. -/
theorem decDigits_map_digitCh : ∀ l : List Nat, (∀ d ∈ l, d < 10) →
    decDigits (l.map digitCh) = some l := by
  intro l
  induction l with
  | nil => intro _; rfl
  | cons d ds ih =>
    intro h
    have h1 := decDigit_digitCh d (h d (by simp))
    have h2 := ih (fun x hx => h x (by simp [hx]))
    simp [decDigits, h1, h2]

/-- The timestamp string encoding is lossless. -/
theorem decMs_encMs (n : Nat) : decMs (encMs n) = some n := by
  by_cases hn : n = 0
  · subst hn; decide
  · have hd : natDigits n = Nat.digits 10 n := natDigitsAux_eq_digits n n le_rfl
    have hlt : ∀ d ∈ (Nat.digits 10 n).reverse, d < 10 :=
      fun d hd' => Nat.digits_lt_base (by norm_num) (List.mem_reverse.mp hd')
    have hdec : decDigits (((natDigits n).map digitCh).reverse)
        = some ((Nat.digits 10 n).reverse) := by
      rw [hd, ← List.map_reverse]
      exact decDigits_map_digitCh _ hlt
    have hne : (((natDigits n).map digitCh)).reverse ≠ [] := by
      simp only [hd, ne_eq, List.reverse_eq_nil_iff, List.map_eq_nil_iff]
      exact Nat.digits_ne_nil_iff_ne_zero.mpr hn
    rw [encMs, if_neg hn]
    rcases hl : (((natDigits n).map digitCh)).reverse with _ | ⟨c, cs⟩
    · exact absurd hl hne
    · rw [hl] at hdec
      show decMsChars (c :: cs) = some n
      simp only [decMsChars, hdec]
      rw [List.reverse_reverse, Nat.ofDigits_digits]

/-- Parsing the stored document written for a fresh `User` recovers its
four fields. -/
theorem jsonParseDoc_userDataJson (email id tok : String) (expMs : Nat) :
    jsonParseDoc (userDataJson email id tok expMs)
      = Except.ok (some [("email", email), ("id", id), ("_token", tok),
                         ("_tokenExpirationDate", encMs expMs)]) := by
  have hne : ([("email", email), ("id", id), ("_token", tok),
      ("_tokenExpirationDate", encMs expMs)] : List (String × String)) ≠ [] := by simp
  have hparse := parsePairsAux_renderPairs
    [("email", email), ("id", id), ("_token", tok), ("_tokenExpirationDate", encMs expMs)]
    (renderPairs [("email", email), ("id", id), ("_token", tok),
      ("_tokenExpirationDate", encMs expMs)]).length [] hne
    (length_le_renderPairs _)
  rw [List.append_nil] at hparse
  show jsonParseChars ('\x7b' :: renderPairs
    [("email", email), ("id", id), ("_token", tok),
     ("_tokenExpirationDate", encMs expMs)]) = _
  rw [jsonParseChars]
  rw [if_neg (by simp), if_neg (by simp [renderPairs, renderPair])]
  rw [hparse]

/-- `brun` unfolds one operation at a time. -/
theorem brun_cons {α : Type} (s : BSubject α) (op : BOp α) (ops : List (BOp α)) :
    brun s (op :: ops) = brun (bstep s op) ops := rfl

/-- An observer that is not registered (and is never subscribed by the
remaining operations) receives nothing further. -/
theorem brun_delivered_count_zero {α : Type} (id : Nat) :
    ∀ (ops : List (BOp α)) (s : BSubject α), s.observers.count id = 0 →
      BOp.subscribe id ∉ ops → (brun s ops).delivered id = s.delivered id := by
  intro ops
  induction ops with
  | nil => intro s _ _; rfl
  | cons op rest ih =>
    intro s h0 hns
    have hns' : BOp.subscribe id ∉ rest := fun h => hns (List.mem_cons_of_mem _ h)
    cases op with
    | next v =>
      have hmem : id ∉ s.observers := List.count_eq_zero.mp h0
      rw [brun_cons, ih _ (by simpa [bstep] using h0) hns']
      simp [bstep, hmem]
    | subscribe j =>
      have hj : j ≠ id := by intro h; subst h; exact hns (List.mem_cons_self _ _)
      rw [brun_cons, ih _ (by simp [bstep, List.count_append, List.count_cons, hj, h0]) hns']
      simp [bstep, Ne.symm hj]
    | unsubscribe j =>
      by_cases hji : j = id
      · subst hji
        rw [brun_cons, ih _ (by simp [bstep, List.count_erase_self, h0]) hns']
        simp [bstep]
      · rw [brun_cons,
          ih _ (by simp [bstep, List.count_erase_of_ne (fun h => hji h.symm), h0]) hns']
        simp [bstep]

/-- An observer registered exactly once (and never re-subscribed)
receives exactly the emitted values up to its unsubscription. -/
theorem brun_delivered_count_one {α : Type} (id : Nat) :
    ∀ (ops : List (BOp α)) (s : BSubject α), s.observers.count id = 1 →
      BOp.subscribe id ∉ ops →
      (brun s ops).delivered id = s.delivered id ++ emittedWhile id ops := by
  intro ops
  induction ops with
  | nil => intro s _ _; simp [brun, emittedWhile]
  | cons op rest ih =>
    intro s h1 hns
    have hns' : BOp.subscribe id ∉ rest := fun h => hns (List.mem_cons_of_mem _ h)
    cases op with
    | next v =>
      have hmem : id ∈ s.observers := List.count_pos_iff.mp (by omega)
      rw [brun_cons, ih _ (by simpa [bstep] using h1) hns']
      simp [bstep, hmem, emittedWhile]
    | subscribe j =>
      have hj : j ≠ id := by intro h; subst h; exact hns (List.mem_cons_self _ _)
      rw [brun_cons, ih _ (by simp [bstep, List.count_append, List.count_cons, hj, h1]) hns']
      simp [bstep, Ne.symm hj, emittedWhile]
    | unsubscribe j =>
      by_cases hji : j = id
      · rw [brun_cons,
          brun_delivered_count_zero id rest _
            (by simp [bstep, hji, List.count_erase_self, h1]) hns']
        simp [bstep, emittedWhile, hji]
      · rw [brun_cons,
          ih _ (by simp [bstep, List.count_erase_of_ne (fun h => hji h.symm), h1]) hns']
        simp [bstep, emittedWhile, hji]

/-! ### The claims -/

/-- Claim C1, counterexample: the claim demands that at `t == expiresAt`
the token accessor yields `null`; in the code the getter nulls the token
only for `new Date() > expiresAt`, so at `t == expiresAt` (here both
`1000`) it still returns the stored token. -/
theorem token_at_expiry_counterexample :
    User.token { email := some "a", id := some "u", _token := some "tok",
                 _tokenExpirationDate := DateVal.dtime 1000 } 1000 = some "tok" ∧
    User.token { email := some "a", id := some "u", _token := some "tok",
                 _tokenExpirationDate := DateVal.dtime 1000 } 1000 ≠ none := by
  constructor
  · rfl
  · decide

/-- Claim C1 as amended: validity is non-strict — for a `User` with a
real expiration date and a stored token, the token accessor yields
`null` exactly when `t > expiresAt` (equivalently, the credential is
valid iff `t ≤ expiresAt`, including at `t == expiresAt`). -/
theorem token_validity_nonstrict (u : User) (e : Nat) (tok : String) (now : Nat)
    (hd : u._tokenExpirationDate = DateVal.dtime e) (ht : u._token = some tok) :
    User.token u now = none ↔ e < now := by
  by_cases h : e < now <;> simp [User.token, hd, ht, dateTruthy, dateGt, h]

/-- Claim C1 witness: the amended statement at a concrete input. -/
theorem token_validity_nonstrict_witness :
    User.token { email := some "a", id := some "u", _token := some "tok",
                 _tokenExpirationDate := DateVal.dtime 1000 } 1001 = none :=
  (token_validity_nonstrict _ 1000 "tok" 1001 rfl rfl).mpr (by decide)

/-- Claim C2, counterexample: after two consecutive successful logins
(no intervening logout) two live timers exist, refuting the claim that
every transition to `Active` first cancels the outstanding timer. -/
theorem single_timer_counterexample :
    ¬ ((handleAuthentication (handleAuthentication initialAuthState "a" "u" "t" 10 0)
        "b" "v" "w" 20 5).pending.length ≤ 1) := by decide

/-- Claim C2 as amended: on a transition to `Active` the service
schedules a fresh timer and tracks its handle but cancels nothing — the
previously pending timers all stay live. -/
theorem handleAuthentication_appends_timer (s : AuthState) (email userId tok : String)
    (expiresIn now : Nat) :
    (handleAuthentication s email userId tok expiresIn now).pending
        = s.pending ++ [(s.nextId, now + expiresIn * 1000)] ∧
    (handleAuthentication s email userId tok expiresIn now).tokenExpirationTimer
        = some s.nextId :=
  ⟨rfl, rfl⟩

/-- Claim C3, counterexample: with a stored credential whose
`expiresAt` (1000 ms) lies in the past of the load time (2000000 ms),
`autoLogin` leaves the session empty but does NOT clear the persisted
entry — the expired document is still in the store. -/
theorem autoLogin_expired_store_counterexample :
    autoLogin { initialAuthState with
        store := some (userDataJson "a@b" "uid" "tok" 1000) } 2000000
      = Except.ok { initialAuthState with
          store := some (userDataJson "a@b" "uid" "tok" 1000) } ∧
    ({ initialAuthState with
        store := some (userDataJson "a@b" "uid" "tok" 1000) } : AuthState).user = none ∧
    ({ initialAuthState with
        store := some (userDataJson "a@b" "uid" "tok" 1000) } : AuthState).store ≠ none := by
  refine ⟨rfl, rfl, by simp⟩

/-- Claim C3 as amended: when the stored credential's token evaluates to
null at load time, `autoLogin` returns with the whole state — session
(still empty) and persisted entry alike — unchanged; nothing is written
to the store. -/
theorem autoLogin_expired_leaves_state (s : AuthState) (now : Nat) (u : User)
    (hload : loadStoredUser s.store = Except.ok (some u))
    (hexp : strTruthy (User.token u now) = false) :
    autoLogin s now = Except.ok s := by
  simp [autoLogin, hload, hexp]

/-- Claim C3 witness: the amended statement at a concrete expired
document. -/
theorem autoLogin_expired_leaves_state_witness :
    autoLogin { initialAuthState with
        store := some (userDataJson "a@b" "uid" "tok" 1000) } 2000000
      = Except.ok { initialAuthState with
          store := some (userDataJson "a@b" "uid" "tok" 1000) } :=
  autoLogin_expired_leaves_state _ 2000000
    { email := some "a@b", id := some "uid", _token := some "tok",
      _tokenExpirationDate := DateVal.dtime 1000 } rfl rfl

/-- Claim C4, counterexample: with a logged-in but expired user the
interceptor does not pass the request through unmodified as the claim
demands — it still clones, replacing the params with an `auth` entry
carrying the null token. -/
theorem intercept_expired_counterexample :
    intercept (some { email := some "a", id := some "u", _token := some "tok",
                      _tokenExpirationDate := DateVal.dtime 1000 }) 2000
        { url := "u", params := [("x", some "1")] }
      ≠ { url := "u", params := [("x", some "1")] } := by decide

/-- Claim C4 as amended: the interceptor takes one snapshot and passes
the request through unmodified exactly when no user is logged in; for
any present user (valid or expired) it returns a clone whose params are
a fresh set holding `auth := user.token` (so the original descriptor
value is never mutated, but an expired credential still gets a clone
with a null token). -/
theorem intercept_clone_or_passthrough (now : Nat) (req : HttpRequestModel) (u : User) :
    intercept none now req = req ∧
    intercept (some u) now req = { req with params := [("auth", User.token u now)] } :=
  ⟨rfl, rfl⟩

/-- Claim C5, counterexample: with an `Active` but expired session
(token already null at time 2000) the guard still returns `Allow`,
refuting "Allow exactly when Active and valid". -/
theorem canActivate_expired_counterexample :
    User.token { email := some "a", id := some "u", _token := some "tok",
                 _tokenExpirationDate := DateVal.dtime 1000 } 2000 = none ∧
    canActivate (some { email := some "a", id := some "u", _token := some "tok",
                        _tokenExpirationDate := DateVal.dtime 1000 })
      = GuardDecision.allow :=
  ⟨rfl, rfl⟩

/-- Claim C5 as amended: the guard returns `Allow` exactly when a user
value is present (`Active`), ignoring credential validity, and for the
`Empty` session returns the discriminated redirect to `/auth`. -/
theorem canActivate_ignores_validity (user : Option User) :
    (canActivate user = GuardDecision.allow ↔ user.isSome = true) ∧
    (user = none → canActivate user = GuardDecision.redirect ["/auth"]) := by
  cases user <;> simp [canActivate]

/-- Claim C5 witness: the amended statement at the two scenario
inputs. -/
theorem canActivate_ignores_validity_witness :
    canActivate none = GuardDecision.redirect ["/auth"] ∧
    canActivate (some { email := some "a", id := some "u", _token := some "tok",
                        _tokenExpirationDate := DateVal.dtime 9 }) = GuardDecision.allow :=
  ⟨(canActivate_ignores_validity none).2 rfl,
   (canActivate_ignores_validity
      (some { email := some "a", id := some "u", _token := some "tok",
              _tokenExpirationDate := DateVal.dtime 9 })).1.mpr rfl⟩

/-- Claim C6, counterexample: on a malformed stored document (a lone
opening brace) the load path does not return "none" — `JSON.parse`
throws and `autoLogin` propagates the exception to its caller. -/
theorem load_malformed_counterexample :
    autoLogin { initialAuthState with store := some "\x7b" } 0 = Except.error () := rfl

/-- Claim C6 as amended: with missing data the load path yields null
and `autoLogin` no-ops without failing, but with malformed
(non-deserializable) data `JSON.parse` raises and the startup load path
throws to its caller instead of degrading to a logged-out session. -/
theorem autoLogin_missing_ok_malformed_throws (s : AuthState) (now : Nat) :
    (s.store = none → autoLogin s now = Except.ok s) ∧
    (s.store = some "\x7b" → autoLogin s now = Except.error ()) := by
  constructor
  · intro h
    simp [autoLogin, loadStoredUser, loadUserData, h]
  · intro h
    have hload : loadStoredUser s.store = Except.error () := by rw [h]; rfl
    simp [autoLogin, hload]

/-- Claim C6 witness: the amended statement at concrete states. -/
theorem autoLogin_missing_ok_malformed_throws_witness :
    autoLogin initialAuthState 7 = Except.ok initialAuthState ∧
    autoLogin { initialAuthState with store := some "\x7b" } 7 = Except.error () :=
  ⟨(autoLogin_missing_ok_malformed_throws initialAuthState 7).1 rfl,
   (autoLogin_missing_ok_malformed_throws
      { initialAuthState with store := some "\x7b" } 7).2 rfl⟩

/-- Claim C7, counterexample: two successful logins leave an orphaned
timer that `logout` cannot clear (it only clears the tracked handle);
after the explicit logout the orphan comes due and invokes logout a
second time — the invocation counter reaches 2. -/
theorem logout_then_fire_counterexample :
    ¬ ((fireTimer (logout (handleAuthentication (handleAuthentication initialAuthState
          "a" "u" "t" 10 0) "b" "v" "w" 20 5)) 0).logoutCalls ≤ 1) := by decide

/-- Claim C7 as amended: the timer whose handle `logout` tracks is
cleared by it, and its subsequent coming-due is a no-op — logout is not
invoked a second time through it.  (Only an orphaned timer from an
intervening re-login escapes this.) -/
theorem logout_cancels_tracked_timer (s : AuthState) (id : Nat)
    (h : s.tokenExpirationTimer = some id) :
    fireTimer (logout s) id = logout s := by
  have hp : (logout s).pending = s.pending.filter (fun t => t.1 ≠ id) := by
    simp [logout, h]
  simp [fireTimer, hp, any_filter_ne_eq_false]

/-- Claim C7 witness: after a single login, logout clears the pending
timer and its fire changes nothing. -/
theorem logout_cancels_tracked_timer_witness :
    fireTimer (logout (handleAuthentication initialAuthState "a" "u" "t" 10 0)) 0
      = logout (handleAuthentication initialAuthState "a" "u" "t" 10 0) :=
  logout_cancels_tracked_timer _ 0 rfl

/-- Claim C8 (confirmed): an observer subscribing to the
`BehaviorSubject` after `next v` has completed receives `v` immediately
upon subscribing — before any further transition — and then every
subsequently emitted value until it unsubscribes. -/
theorem behaviorSubject_replays_then_streams (s : BSubject (Option User))
    (v : Option User) (id : Nat) (post : List (BOp (Option User)))
    (hfresh : id ∉ s.observers) (hnores : BOp.subscribe id ∉ post) :
    (brun s (BOp.next v :: BOp.subscribe id :: post)).delivered id
      = s.delivered id ++ v :: emittedWhile id post := by
  rw [brun_cons, brun_cons]
  have h1 : ((bstep (bstep s (BOp.next v)) (BOp.subscribe id)).observers).count id = 1 := by
    simp [bstep, List.count_append, List.count_eq_zero_of_not_mem hfresh, List.count_cons]
  rw [brun_delivered_count_one id post _ h1 hnores]
  have h2 : (bstep (bstep s (BOp.next v)) (BOp.subscribe id)).delivered id
      = s.delivered id ++ [v] := by
    simp [bstep, hfresh]
  rw [h2, List.append_assoc]
  rfl

/-- Claim C8 witness: a concrete late subscriber receives the cached
value and then the following emission. -/
theorem behaviorSubject_replays_then_streams_witness :
    (brun ({ value := none, observers := [], delivered := fun _ => [] }
          : BSubject (Option User))
        (BOp.next (some { email := some "a", id := some "u", _token := some "t",
                          _tokenExpirationDate := DateVal.dtime 5 })
         :: BOp.subscribe 1
         :: [BOp.next none, BOp.unsubscribe 1])).delivered 1
      = [some { email := some "a", id := some "u", _token := some "t",
                _tokenExpirationDate := DateVal.dtime 5 }, none] :=
  (behaviorSubject_replays_then_streams _ _ 1 _ (by decide) (by decide)).trans (by decide)

/-- Claim C9 (confirmed): saving the credential written by a successful
authentication and loading it back reconstructs a `User` equal to the
original in all four fields, and the reconstructed credential's
validity (the token accessor) is re-evaluated against whatever the wall
clock reads at access time rather than trusted from storage. -/
theorem persisted_credential_roundtrip (s : AuthState) (email id tok : String)
    (expiresIn now now' : Nat) :
    loadStoredUser (handleAuthentication s email id tok expiresIn now).store
      = Except.ok (some { email := some email, id := some id, _token := some tok,
                          _tokenExpirationDate := DateVal.dtime (now + expiresIn * 1000) }) ∧
    User.token { email := some email, id := some id, _token := some tok,
                 _tokenExpirationDate := DateVal.dtime (now + expiresIn * 1000) } now'
      = (if now + expiresIn * 1000 < now' then none else some tok) := by
  constructor
  · have e1 : getField [("email", email), ("id", id), ("_token", tok),
        ("_tokenExpirationDate", encMs (now + expiresIn * 1000))] "email" = some email := rfl
    have e2 : getField [("email", email), ("id", id), ("_token", tok),
        ("_tokenExpirationDate", encMs (now + expiresIn * 1000))] "id" = some id := rfl
    have e3 : getField [("email", email), ("id", id), ("_token", tok),
        ("_tokenExpirationDate", encMs (now + expiresIn * 1000))] "_token" = some tok := rfl
    have e4 : getField [("email", email), ("id", id), ("_token", tok),
        ("_tokenExpirationDate", encMs (now + expiresIn * 1000))] "_tokenExpirationDate"
        = some (encMs (now + expiresIn * 1000)) := rfl
    have hstore : (handleAuthentication s email id tok expiresIn now).store
        = some (userDataJson email id tok (now + expiresIn * 1000)) := rfl
    rw [hstore]
    simp only [loadStoredUser, loadUserData, jsonParseDoc_userDataJson]
    simp only [userOfDoc, e1, e2, e3, e4, dateOfStored, decMs_encMs]
  · by_cases h : now + expiresIn * 1000 < now' <;>
      simp [User.token, dateTruthy, dateGt, h]

/-- Claim C10 (confirmed): a `User` whose stored expiration date is
absent (`null`/`undefined`) has a null token — the getter short-circuits
on the falsy date and never reaches the comparison. -/
theorem token_null_without_expiration (u : User) (now : Nat)
    (h : u._tokenExpirationDate = DateVal.dnull) :
    User.token u now = none := by
  simp [User.token, h, dateTruthy]

/-- Claim C10 witness: the statement at a concrete dateless user. -/
theorem token_null_without_expiration_witness :
    User.token { email := some "a", id := some "u", _token := some "tok",
                 _tokenExpirationDate := DateVal.dnull } 0 = none :=
  token_null_without_expiration _ 0 rfl
